import Mathlib

/-!
Shallow embedding of the wallet ledger and transaction-settlement engine of the
vtu-api-server repository, together with proofs about its claimed properties.

Modelling conventions:
* Monetary amounts are rationals (JavaScript numbers; every amount appearing in
  the claims is exactly representable).
* MongoDB documents are Lean structures holding the fields the claims mention;
  the database is a `DB` record of lists of documents.
* A Mongoose session is modelled by working on a session copy of the `DB`:
  committed sessions return the mutated copy, aborted sessions return the
  original `DB` (this is exactly `session.abortTransaction()`).
* Each service function takes a `failWrites : List Nat` argument injecting
  storage failures: the n-th write of the function fails iff `n ∈ failWrites`.
  Passing `[]` is the failure-free run.
* Timestamps are not modelled except where a claim needs them
  (maintenance windows take an explicit `now : Int`).
* `processWithProvider` performs external network I/O and randomness; it is
  modelled only as a dispatch record appended to `DB.dispatched`, which is all
  the claims inspect ("no provider is contacted").
* The transactions collection carries a unique index on `reference`
  (models/Transaction.js). `DB.refTaken` models that index: saving a new
  document whose caller-supplied reference is already stored fails with a
  duplicate-key error, aborting the enclosing session (creditWallet and
  debitWallet take their reference from the caller). References produced by
  `Transaction.generateReference()` are unique by the documented generation
  contract — a colliding generated reference is rejected by the same index and
  regenerated — so inserts of rows with freshly generated references always
  commit; the model's counter-backed `DB.freshRef` realises that contract.
-/

/-- Transaction status enum of the Transaction schema. -/
inductive TxStatus
  | pending
  | processing
  | successful
  | failed
  | cancelled
  | refunded
deriving DecidableEq

/-- Provider status enum of the ProviderStatus schema. -/
inductive ProvStatus
  | active
  | inactive
  | maintenance
  | degraded
deriving DecidableEq

/-- AppError from middlewares/errorHandler: a message plus an HTTP status code. -/
structure AppError where
  message : String
  statusCode : Nat
deriving DecidableEq

def errWalletNotFound : AppError := ⟨"Wallet not found", 404⟩
def errWalletLocked : AppError := ⟨"Wallet is locked", 400⟩
def errInsufficientBalance : AppError := ⟨"Insufficient balance", 400⟩
def errInsufficientForFee : AppError := ⟨"Insufficient balance to cover amount and fee", 400⟩
def errYourWalletLocked : AppError := ⟨"Your wallet is locked", 400⟩
def errRecipientWalletLocked : AppError := ⟨"Recipient wallet is locked", 400⟩
def errTxNotFound : AppError := ⟨"Transaction not found", 404⟩
def errAlreadyProcessed : AppError := ⟨"Transaction already processed", 400⟩
def errNotFoundOrNotFailed : AppError := ⟨"Transaction not found or not failed", 400⟩
def errNotFailedState : AppError := ⟨"Transaction is not in failed state", 400⟩
def errMaxRetries : AppError := ⟨"Max retry attempts reached", 400⟩
def errNoMoreProviders : AppError := ⟨"No more providers to try", 503⟩
def errFailedToCredit : AppError := ⟨"Failed to credit wallet", 500⟩
def errFailedToDebit : AppError := ⟨"Failed to debit wallet", 500⟩
def errFailedToTransfer : AppError := ⟨"Failed to transfer funds", 500⟩
def errFailedToProcess : AppError := ⟨"Failed to process transaction", 500⟩

/-- Stand-in for a raw (non-AppError) storage-layer error from a failed write.
refundFailedTransaction rethrows it unchanged; the other services wrap it. -/
def errStorage : AppError := ⟨"storage error", 500⟩

/-- One entry of a transaction's statusHistory (timestamps are not modelled). -/
structure HistEntry where
  status : TxStatus
  note : String
deriving DecidableEq

/-- The metadata fields of a Transaction that the claims inspect. -/
structure Metadata where
  refundFor : Option String := none
  originalTransaction : Option Nat := none
  linkedReference : Option String := none
  triedProviders : List String := []
  fundingType : Option String := none
  debitType : Option String := none
  transferType : Option String := none
  sender : Option Nat := none
deriving DecidableEq

/-- A Transaction document (the fields of models/Transaction.js that the claims
touch). `ty` is the schema's `type` field; `id` is the Mongo `_id`. -/
structure Txn where
  id : Nat
  reference : String
  user : Nat
  ty : String
  category : String
  amount : ℚ
  fee : ℚ := 0
  totalAmount : ℚ
  previousBalance : ℚ := 0
  newBalance : ℚ := 0
  status : TxStatus := .pending
  statusHistory : List HistEntry := []
  retryCount : Nat := 0
  maxRetries : Nat := 3
  providerName : Option String := none
  providerAlternate : Option String := none
  recipientUser : Option Nat := none
  description : String := ""
  metadata : Metadata := {}
deriving DecidableEq

/-- A Wallet document (models Wallet schema; one per user). -/
structure Wallet where
  user : Nat
  balance : ℚ
  locked : Bool := false
  totalFunded : ℚ := 0
  totalSpent : ℚ := 0
deriving DecidableEq

/-- A ProviderStatus document. -/
structure ProviderStatus where
  providerName : String
  supportedServices : List String
  status : ProvStatus
  priority : Int
  successRate : ℚ
  maintenanceStart : Option Int := none
  maintenanceEnd : Option Int := none
deriving DecidableEq

/-- The persistent store: the three durable collections, a fresh-id source for
Mongo `_id`s, a counter backing `Transaction.generateReference()`, and the log
of transactions handed to the asynchronous `processWithProvider`. -/
structure DB where
  wallets : List Wallet
  txns : List Txn
  providers : List ProviderStatus := []
  nextId : Nat := 1000
  nextRef : Nat := 0
  dispatched : List (Nat × Option String) := []
deriving DecidableEq

/-- Wallet.findOne({ user }). -/
def DB.findWallet (db : DB) (u : Nat) : Option Wallet :=
  db.wallets.find? (fun w => decide (w.user = u))

/-- Saving an already-loaded wallet document: replace by owning user
(wallets carry a unique index on user). -/
def DB.putWallet (db : DB) (w : Wallet) : DB :=
  { db with wallets := db.wallets.map (fun x => if x.user = w.user then w else x) }

/-- Transaction.findById. -/
def DB.findTxn (db : DB) (i : Nat) : Option Txn :=
  db.txns.find? (fun t => decide (t.id = i))

/-- Saving an already-loaded transaction document: replace by `_id`. -/
def DB.putTxn (db : DB) (t : Txn) : DB :=
  { db with txns := db.txns.map (fun x => if x.id = t.id then t else x) }

/-- The unique index on `reference`: true when some stored transaction already
holds this reference, in which case inserting another row with it raises a
duplicate-key error. -/
def DB.refTaken (db : DB) (r : String) : Bool :=
  db.txns.any (fun t => decide (t.reference = r))

/-- Persisting a freshly constructed transaction document (its `id` must be the
current `nextId`). Used directly only for rows whose reference was just
produced by `Transaction.generateReference()`, which the unique index plus the
regenerate-on-collision contract keeps distinct from every stored reference;
rows with a caller-supplied reference must first pass the `DB.refTaken` check
modelling the index. -/
def DB.insertTxn (db : DB) (t : Txn) : DB :=
  { db with txns := db.txns ++ [t], nextId := db.nextId + 1 }

/-- Transaction.generateReference(): constant prefix plus fresh suffix. -/
def DB.freshRef (db : DB) : String :=
  "YAREEMA" ++ toString db.nextRef

def DB.bumpRef (db : DB) : DB :=
  { db with nextRef := db.nextRef + 1 }

/-- Hand a transaction to the fire-and-forget provider pipeline. -/
def DB.dispatch (db : DB) (i : Nat) (prov : Option String) : DB :=
  { db with dispatched := db.dispatched ++ [(i, prov)] }

/-- Transaction.findOne({ reference, type: fund_wallet, status: pending }) used
by the webhook reconciler. -/
def DB.findFundPending (db : DB) (r : String) : Option Txn :=
  db.txns.find? (fun t =>
    decide (t.reference = r) && decide (t.ty = "fund_wallet") && decide (t.status = TxStatus.pending))

/-- WalletService.creditWallet (walletService.js). All writes happen inside one
session; any failure aborts the session, so the original `DB` is returned. The
ledger row is saved under the caller-supplied reference, so the save raises a
duplicate-key error — wrapped by the catch block into the generic credit
failure — whenever that reference is already stored (`DB.refTaken`). -/
def creditWallet (failWrites : List Nat) (userId : Nat) (amount : ℚ) (reference : String)
    (description : String) (db : DB) : Except AppError (Wallet × Txn) × DB :=
  match db.findWallet userId with
  | none => (.error errWalletNotFound, db)
  | some wallet =>
    if wallet.locked then (.error errWalletLocked, db)
    else
      let previousBalance := wallet.balance
      let newBalance := previousBalance + amount
      let wallet1 := { wallet with
        balance := newBalance,
        totalFunded := wallet.totalFunded + amount }
      if failWrites.contains 0 then (.error errFailedToCredit, db)
      else
        let s1 := db.putWallet wallet1
        let txn : Txn := { id := s1.nextId
                           reference := reference
                           user := userId
                           ty := "fund_wallet"
                           category := "funding"
                           amount := amount
                           fee := 0
                           totalAmount := amount
                           previousBalance := previousBalance
                           newBalance := newBalance
                           status := .successful
                           description := description
                           metadata := { fundingType := some "manual_credit" } }
        if failWrites.contains 1 then (.error errFailedToCredit, db)
        else if db.refTaken reference then (.error errFailedToCredit, db)
        else (.ok (wallet1, txn), s1.insertTxn txn)

/-- WalletService.debitWallet (walletService.js). As in creditWallet, the
ledger row's reference is supplied by the caller, so its save trips the unique
reference index when the reference is already stored, aborting the session
with the wrapped duplicate-key error. -/
def debitWallet (failWrites : List Nat) (userId : Nat) (amount : ℚ) (reference : String)
    (description : String) (db : DB) : Except AppError (Wallet × Txn) × DB :=
  match db.findWallet userId with
  | none => (.error errWalletNotFound, db)
  | some wallet =>
    if wallet.locked then (.error errWalletLocked, db)
    else if wallet.balance < amount then (.error errInsufficientBalance, db)
    else
      let previousBalance := wallet.balance
      let newBalance := previousBalance - amount
      let wallet1 := { wallet with
        balance := newBalance,
        totalSpent := wallet.totalSpent + amount }
      if failWrites.contains 0 then (.error errFailedToDebit, db)
      else
        let s1 := db.putWallet wallet1
        let txn : Txn := { id := s1.nextId
                           reference := reference
                           user := userId
                           ty := "wallet_transfer"
                           category := "transfer"
                           amount := amount
                           fee := 0
                           totalAmount := amount
                           previousBalance := previousBalance
                           newBalance := newBalance
                           status := .successful
                           description := description
                           metadata := { debitType := some "manual_debit" } }
        if failWrites.contains 1 then (.error errFailedToDebit, db)
        else if db.refTaken reference then (.error errFailedToDebit, db)
        else (.ok (wallet1, txn), s1.insertTxn txn)

/-- WalletService.transferFunds (walletService.js). Sender is debited
`amount + fee` with `fee = max(10, amount * 0.02)`, recipient is credited
`amount`, and three ledger rows are written, all inside one session. -/
def transferFunds (failWrites : List Nat) (senderId recipientId : Nat) (amount : ℚ)
    (db : DB) : Except AppError (Wallet × Wallet × Txn × Txn × Txn) × DB :=
  match db.findWallet senderId, db.findWallet recipientId with
  | none, _ => (.error errWalletNotFound, db)
  | _, none => (.error errWalletNotFound, db)
  | some senderWallet, some recipientWallet =>
    if senderWallet.locked then (.error errYourWalletLocked, db)
    else if recipientWallet.locked then (.error errRecipientWalletLocked, db)
    else if senderWallet.balance < amount then (.error errInsufficientBalance, db)
    else
      let fee := max 10 (amount * (2 / 100))
      let totalDebit := amount + fee
      if senderWallet.balance < totalDebit then (.error errInsufficientForFee, db)
      else
        let senderPreviousBalance := senderWallet.balance
        let senderNewBalance := senderPreviousBalance - totalDebit
        let recipientPreviousBalance := recipientWallet.balance
        let recipientNewBalance := recipientPreviousBalance + amount
        let senderWallet1 := { senderWallet with
          balance := senderNewBalance,
          totalSpent := senderWallet.totalSpent + totalDebit }
        let recipientWallet1 := { recipientWallet with
          balance := recipientNewBalance,
          totalFunded := recipientWallet.totalFunded + amount }
        if failWrites.contains 0 then (.error errFailedToTransfer, db)
        else
          let s1 := db.putWallet senderWallet1
          if failWrites.contains 1 then (.error errFailedToTransfer, db)
          else
            let s2 := s1.putWallet recipientWallet1
            let transferReference := s2.freshRef
            let s3 := s2.bumpRef
            let feeReference := s3.freshRef
            let s4 := s3.bumpRef
            let transferTransaction : Txn := { id := s4.nextId
                                               reference := transferReference
                                               user := senderId
                                               ty := "wallet_transfer"
                                               category := "transfer"
                                               amount := amount
                                               fee := fee
                                               totalAmount := totalDebit
                                               previousBalance := senderPreviousBalance
                                               newBalance := senderNewBalance
                                               status := .successful
                                               recipientUser := some recipientId
                                               description := "Transfer to user"
                                               metadata := { transferType := some "wallet_to_wallet" } }
            let feeTransaction : Txn := { id := s4.nextId + 1
                                          reference := feeReference
                                          user := senderId
                                          ty := "wallet_transfer"
                                          category := "transfer"
                                          amount := fee
                                          fee := 0
                                          totalAmount := fee
                                          previousBalance := senderPreviousBalance - amount
                                          newBalance := senderNewBalance
                                          status := .successful
                                          description := "Transfer fee"
                                          metadata := { transferType := some "fee"
                                                        linkedReference := some transferReference } }
            let creditTransaction : Txn := { id := s4.nextId + 2
                                             reference := s4.freshRef
                                             user := recipientId
                                             ty := "wallet_transfer"
                                             category := "transfer"
                                             amount := amount
                                             fee := 0
                                             totalAmount := amount
                                             previousBalance := recipientPreviousBalance
                                             newBalance := recipientNewBalance
                                             status := .successful
                                             description := "Transfer from user"
                                             metadata := { transferType := some "wallet_to_wallet"
                                                           sender := some senderId
                                                           linkedReference := some transferReference } }
            let s5 := s4.bumpRef
            if failWrites.contains 2 then (.error errFailedToTransfer, db)
            else
              let s6 := s5.insertTxn transferTransaction
              if failWrites.contains 3 then (.error errFailedToTransfer, db)
              else
                let s7 := s6.insertTxn feeTransaction
                if failWrites.contains 4 then (.error errFailedToTransfer, db)
                else
                  let s8 := s7.insertTxn creditTransaction
                  (.ok (senderWallet1, recipientWallet1,
                        transferTransaction, feeTransaction, creditTransaction), s8)

/-- TransactionService.processTelecomTransaction (transactionService.js), the
reservation step. Everything up to `session.commitTransaction()` runs in one
session; the catch block aborts the session, so every error path returns the
original `DB`. Note two source subtleties reflected here: the failed-status
saves of the locked and insufficient-balance branches are rolled back by the
abort, and `previousBalance` / `newBalance` are assigned to the in-memory
document only after its final save, so the committed row does not receive
them. -/
def processTelecomTransaction (failWrites : List Nat) (transactionId : Nat)
    (providerArg : Option String) (db : DB) : Except AppError Txn × DB :=
  match db.findTxn transactionId with
  | none => (.error errTxNotFound, db)
  | some transaction =>
    if transaction.status ≠ .pending then (.error errAlreadyProcessed, db)
    else
      match db.findWallet transaction.user with
      | none => (.error errWalletNotFound, db)
      | some wallet =>
        if wallet.locked then
          (.error (if failWrites.contains 0 then errFailedToProcess else errWalletLocked), db)
        else if wallet.balance < transaction.totalAmount then
          (.error (if failWrites.contains 1 then errFailedToProcess else errInsufficientBalance), db)
        else
          let transaction2 := { transaction with
            status := .processing,
            statusHistory := transaction.statusHistory ++
              [⟨.processing, "Processing with provider"⟩],
            providerName :=
              match providerArg, transaction.providerName with
              | some n, none => some n
              | _, _ => transaction.providerName }
          if failWrites.contains 2 then (.error errFailedToProcess, db)
          else
            let s1 := db.putTxn transaction2
            let previousBalance := wallet.balance
            let wallet1 := { wallet with
              balance := wallet.balance - transaction.totalAmount,
              totalSpent := wallet.totalSpent + transaction.totalAmount }
            if failWrites.contains 3 then (.error errFailedToProcess, db)
            else
              let s2 := s1.putWallet wallet1
              let transaction3 := { transaction2 with
                previousBalance := previousBalance,
                newBalance := wallet1.balance }
              (.ok transaction3, (s2.dispatch transactionId none))

/-- TransactionService.refundFailedTransaction (transactionService.js). The
whole reversal runs in one session; the catch rethrows the raw error. -/
def refundFailedTransaction (failWrites : List Nat) (transactionId : Nat)
    (db : DB) : Except AppError Txn × DB :=
  match db.findTxn transactionId with
  | none => (.error errNotFoundOrNotFailed, db)
  | some transaction =>
    if transaction.status ≠ .failed then (.error errNotFoundOrNotFailed, db)
    else
      match db.findWallet transaction.user with
      | none => (.error errWalletNotFound, db)
      | some wallet =>
        let wallet1 := { wallet with
          balance := wallet.balance + transaction.totalAmount,
          totalSpent := wallet.totalSpent - transaction.totalAmount }
        if failWrites.contains 0 then (.error errStorage, db)
        else
          let s1 := db.putWallet wallet1
          let transaction1 := { transaction with
            status := .refunded,
            statusHistory := transaction.statusHistory ++
              [⟨.refunded, "Automatic refund for failed transaction"⟩] }
          if failWrites.contains 1 then (.error errStorage, db)
          else
            let s2 := s1.putTxn transaction1
            let refundTransaction : Txn := { id := s2.nextId
                                             reference := s2.freshRef
                                             user := transaction.user
                                             ty := transaction.ty
                                             category := transaction.category
                                             amount := transaction.totalAmount
                                             fee := 0
                                             totalAmount := transaction.totalAmount
                                             previousBalance := wallet1.balance - transaction.totalAmount
                                             newBalance := wallet1.balance
                                             status := .successful
                                             description := "Refund for failed transaction " ++ transaction.reference
                                             metadata := { refundFor := some transaction.reference
                                                           originalTransaction := some transaction.id } }
            let s3 := s2.bumpRef
            if failWrites.contains 2 then (.error errStorage, db)
            else (.ok refundTransaction, s3.insertTxn refundTransaction)

/-- The webhook reconciler's handleSuccessfulPayment (webhookController). Looks
up the pending fund_wallet transaction by reference; if absent, acknowledges as
a no-op. Otherwise credits the wallet through WalletService.creditWallet (its
own session) — passing the found transaction's own reference, under which
creditWallet tries to insert its ledger row — and then saves the successful
status on the found document with a plain, session-less save. -/
def handleSuccessfulPayment (failWrites : List Nat) (reference : String) (amount : ℚ)
    (db : DB) : Except AppError Unit × DB :=
  match db.findFundPending reference with
  | none => (.ok (), db)
  | some transaction =>
    match creditWallet failWrites transaction.user amount reference
        "Wallet funding via payment gateway" db with
    | (.error e, dbAfter) => (.error e, dbAfter)
    | (.ok _, db1) =>
      let transaction1 := { transaction with
        status := .successful,
        statusHistory := transaction.statusHistory ++
          [⟨.successful, "Payment confirmed via webhook"⟩] }
      if failWrites.contains 2 then (.error errStorage, db1)
      else (.ok (), db1.putTxn transaction1)

/-- Boolean sort key of `.sort({ priority: 1, successRate: -1 })`: ascending
priority, then descending successRate. -/
def provLe (a b : ProviderStatus) : Bool :=
  decide (a.priority < b.priority ∨ (a.priority = b.priority ∧ b.successRate ≤ a.successRate))

/-- Insert an element into a list sorted by `le`, before the first element it
compares at-most-equal to. -/
def insertSorted {α : Type} (le : α → α → Bool) (x : α) : List α → List α
  | [] => [x]
  | a :: t => if le x a then x :: a :: t else a :: insertSorted le x t

/-- Stable insertion sort modelling the store's sorted query result. -/
def isort {α : Type} (le : α → α → Bool) : List α → List α
  | [] => []
  | a :: t => insertSorted le a (isort le t)

/-- Move the preferred provider, when present, to the front of the candidate
list, keeping the others in order (the `[preferred, ...filter(...)]` step). -/
def frontPreferred (preferredProvider : Option String) (l : List ProviderStatus) :
    List ProviderStatus :=
  match preferredProvider with
  | none => l
  | some name =>
    match l.find? (fun p => decide (p.providerName = name)) with
    | some preferred => preferred :: l.filter (fun p => !decide (p.providerName = name))
    | none => l

/-- The query filter shared by the bills and telecom selectors:
supportedServices contains the service type and status is active or degraded. -/
def supportsAndUp (serviceType : String) (p : ProviderStatus) : Bool :=
  p.supportedServices.contains serviceType &&
    (decide (p.status = ProvStatus.active) || decide (p.status = ProvStatus.degraded))

/-- The maintenance filter of BillsService.getAvailableProviders: drop
maintenance and inactive statuses and providers inside their window. -/
def availableNow (now : Int) (p : ProviderStatus) : Bool :=
  if p.status = ProvStatus.maintenance then false
  else if p.status = ProvStatus.inactive then false
  else
    match p.maintenanceStart, p.maintenanceEnd with
    | some s, some e => !(decide (s ≤ now) && decide (now ≤ e))
    | _, _ => true

/-- BillsService.getAvailableProviders (billsService.js): query by service type
and status in {active, degraded}, sort, drop providers in maintenance, then
front the preferred provider. -/
def billsGetAvailableProviders (now : Int) (serviceType : String)
    (preferredProvider : Option String) (db : DB) : List ProviderStatus :=
  let providers := isort provLe (db.providers.filter (supportsAndUp serviceType))
  let availableProviders := providers.filter (availableNow now)
  frontPreferred preferredProvider availableProviders

/-- TransactionService.getAvailableProviders (transactionService.js): query by
service type and status exactly active, sort, front the preferred provider —
no degraded status and no maintenance-window check. -/
def txGetAvailableProviders (serviceType : String) (preferredProvider : Option String)
    (db : DB) : List ProviderStatus :=
  frontPreferred preferredProvider
    (isort provLe (db.providers.filter (fun p =>
      p.supportedServices.contains serviceType && decide (p.status = ProvStatus.active))))

/-- TelecomService.getAvailableProviders (telecomService.js): query by service
type and status in {active, degraded}, sort, front the preferred provider. -/
def telecomGetAvailableProviders (serviceType : String) (preferredProvider : Option String)
    (db : DB) : List ProviderStatus :=
  frontPreferred preferredProvider (isort provLe (db.providers.filter (supportsAndUp serviceType)))

/-- Modelled from the spec's words (§4.3 Selection algorithm), for comparison
with the code's selectors: filter providers supporting the type with status in
{active, degraded} that are not inside their maintenance window, sort ascending
by priority then descending by successRate, and move a present preferred
provider to the front. -/
def specProviderSelection (now : Int) (serviceType : String)
    (preferredProvider : Option String) (db : DB) : List ProviderStatus :=
  let inWindow : ProviderStatus → Bool := fun p =>
    match p.maintenanceStart, p.maintenanceEnd with
    | some s, some e => decide (s ≤ now ∧ now ≤ e)
    | _, _ => false
  frontPreferred preferredProvider
    (isort provLe (db.providers.filter (fun p => supportsAndUp serviceType p && !inWindow p)))

/-- Plain restatement of what txGetAvailableProviders computes, for the amended
claim: only status-active supporting providers, sorted, preferred fronted. -/
def specProviderSelectionActiveOnly (serviceType : String)
    (preferredProvider : Option String) (db : DB) : List ProviderStatus :=
  frontPreferred preferredProvider
    (isort provLe (db.providers.filter (fun p =>
      p.supportedServices.contains serviceType && decide (p.status = ProvStatus.active))))

/-- TelecomService.retryFailedTransaction (telecomService.js). `retryArg` is the
function's `retryCount` parameter; the admin controller passes the stored
`transaction.retryCount` for it. The trailing `processWithProvider` call is
external fulfillment, modelled as a dispatch record. -/
def retryFailedTransaction (failWrites : List Nat) (transactionId : Nat) (retryArg : Nat)
    (db : DB) : Except AppError (Txn × Nat) × DB :=
  match db.findTxn transactionId with
  | none => (.error errTxNotFound, db)
  | some transaction =>
    if transaction.status ≠ .failed then (.error errNotFailedState, db)
    else if transaction.maxRetries ≤ retryArg then (.error errMaxRetries, db)
    else
      let currentProvider := transaction.providerName
      let availableProviders := telecomGetAvailableProviders transaction.ty currentProvider db
      let triedProviders := transaction.metadata.triedProviders
      match availableProviders.find? (fun p => !triedProviders.contains p.providerName) with
      | none => (.error errNoMoreProviders, db)
      | some nextProvider =>
        let transaction1 := { transaction with
          retryCount := transaction.retryCount + 1,
          providerName := some nextProvider.providerName,
          providerAlternate := currentProvider,
          metadata := { transaction.metadata with
            triedProviders := triedProviders ++ [nextProvider.providerName] } }
        if failWrites.contains 0 then (.error errStorage, db)
        else
          let s1 := db.putTxn transaction1
          (.ok (transaction1, transaction1.retryCount),
           s1.dispatch transactionId (some nextProvider.providerName))

/-- Boolean success discriminator for service results. -/
def isOkResult {e a : Type} : Except e a → Bool
  | .ok _ => true
  | .error _ => false

/-- Claim C5: every operation that mutates both a wallet balance and at least
one Transaction row (creditWallet, debitWallet, transferFunds, the reservation
step processTelecomTransaction, refundFailedTransaction) is all-or-nothing:
whatever storage writes are injected to fail, any run that does not return a
success leaves the persistent state (wallet balances, lifetime counters and the
ledger) exactly as it was before the attempt. -/
theorem c5_atomic_all_or_nothing :
    (∀ fw u a r d db, isOkResult (creditWallet fw u a r d db).1 = true ∨
      (creditWallet fw u a r d db).2 = db) ∧
    (∀ fw u a r d db, isOkResult (debitWallet fw u a r d db).1 = true ∨
      (debitWallet fw u a r d db).2 = db) ∧
    (∀ fw s rc a db, isOkResult (transferFunds fw s rc a db).1 = true ∨
      (transferFunds fw s rc a db).2 = db) ∧
    (∀ fw i p db, isOkResult (processTelecomTransaction fw i p db).1 = true ∨
      (processTelecomTransaction fw i p db).2 = db) ∧
    (∀ fw i db, isOkResult (refundFailedTransaction fw i db).1 = true ∨
      (refundFailedTransaction fw i db).2 = db) := by
  refine ⟨?_, ?_, ?_, ?_, ?_⟩
  · intro fw u a r d db
    unfold creditWallet
    dsimp only
    repeat' split
    all_goals simp [isOkResult]
  · intro fw u a r d db
    unfold debitWallet
    dsimp only
    repeat' split
    all_goals simp [isOkResult]
  · intro fw s rc a db
    unfold transferFunds
    dsimp only
    repeat' split
    all_goals simp [isOkResult]
  · intro fw i p db
    unfold processTelecomTransaction
    dsimp only
    repeat' split
    all_goals simp [isOkResult]
  · intro fw i db
    unfold refundFailedTransaction
    dsimp only
    repeat' split
    all_goals simp [isOkResult]

theorem find?_append_some {α : Type} (p : α → Bool) {l1 : List α} (l2 : List α) {a : α}
    (h : l1.find? p = some a) : (l1 ++ l2).find? p = some a := by
  induction l1 with
  | nil => simp [List.find?] at h
  | cons x t ih =>
    rw [List.cons_append]
    cases hx : p x with
    | true =>
      rw [List.find?_cons_of_pos _ hx] at h ⊢
      exact h
    | false =>
      rw [List.find?_cons_of_neg _ (by simp [hx])] at h ⊢
      exact ih h

theorem find?_append_none {α : Type} (p : α → Bool) {l1 : List α} (l2 : List α)
    (h : l1.find? p = none) : (l1 ++ l2).find? p = l2.find? p := by
  induction l1 with
  | nil => simp
  | cons x t ih =>
    cases hx : p x with
    | true => rw [List.find?_cons_of_pos _ hx] at h; exact absurd h (by simp)
    | false =>
      rw [List.find?_cons_of_neg _ (by simp [hx])] at h
      rw [List.cons_append, List.find?_cons_of_neg _ (by simp [hx])]
      exact ih h

/-- Replacing the stored document with key `K` leaves it findable as the new
value: the update step of a keyed save. -/
theorem find?_update_found {α : Type} (k : α → Nat) (w : α) (K : Nat) (hw : k w = K) :
    ∀ l : List α, (l.find? (fun x => decide (k x = K))).isSome →
      (l.map (fun x => if k x = k w then w else x)).find? (fun x => decide (k x = K)) = some w := by
  intro l
  induction l with
  | nil => simp
  | cons a t ih =>
    intro hs
    by_cases h : k a = K
    · have ha : k a = k w := by rw [h, hw]
      simp only [List.map_cons, if_pos ha]
      rw [List.find?_cons_of_pos _ (by simp [hw])]
    · have ha : ¬ k a = k w := by rw [hw]; exact h
      simp only [List.map_cons, if_neg ha]
      rw [List.find?_cons_of_neg _ (by simp [h])]
      rw [List.find?_cons_of_neg _ (by simp [h])] at hs
      exact ih hs

/-- Saving a document whose key is not `K` does not change lookups of `K`. -/
theorem find?_update_other {α : Type} (k : α → Nat) (w : α) (K : Nat) (hw : k w ≠ K) :
    ∀ l : List α,
      (l.map (fun x => if k x = k w then w else x)).find? (fun x => decide (k x = K)) =
        l.find? (fun x => decide (k x = K)) := by
  intro l
  induction l with
  | nil => simp
  | cons a t ih =>
    by_cases h : k a = k w
    · simp only [List.map_cons, if_pos h]
      rw [List.find?_cons_of_neg _ (by simp [hw]),
        List.find?_cons_of_neg _ (by simp [h ▸ hw])]
      exact ih
    · simp only [List.map_cons, if_neg h]
      by_cases hK : k a = K
      · rw [List.find?_cons_of_pos _ (by simp [hK]), List.find?_cons_of_pos _ (by simp [hK])]
      · rw [List.find?_cons_of_neg _ (by simp [hK]), List.find?_cons_of_neg _ (by simp [hK])]
        exact ih

/-- State for claims C1 and C2: one unlocked wallet and one pending telecom
transaction, created exactly as the controllers create it, with
`previousBalance = 0` and `newBalance = 0`. -/
def dbReserveCase (balance total : ℚ) : DB :=
  { wallets := [⟨1, balance, false, 0, 0⟩]
    txns := [{ id := 0
               reference := "TELEREF"
               user := 1
               ty := "data_recharge"
               category := "telecom"
               amount := total
               fee := 0
               totalAmount := total }]
    providers := []
    nextId := 1
    nextRef := 0
    dispatched := [] }

/-- Claim C1, failing part: on a pending transaction (totalAmount 200) of an
unlocked wallet with balance 500, the reservation step commits the debit
(balance 300, totalSpent 200) and the processing status, and the value it
returns carries previousBalance 500 / newBalance 300 — but the persisted
transaction row still carries its creation-time snapshots 0 / 0, so the
committed ledger row violates previousBalance - newBalance == totalAmount.
The snapshots are assigned to the in-memory document only after its final
save({session}). -/
theorem c1_snapshots_not_persisted :
    (((processTelecomTransaction [] 0 none (dbReserveCase 500 200)).2.findWallet 1).map
        (fun w => (w.balance, w.totalSpent)) = some (300, 200)) ∧
    (((processTelecomTransaction [] 0 none (dbReserveCase 500 200)).2.findTxn 0).map
        (fun t => (t.status, t.previousBalance, t.newBalance, t.totalAmount)) =
      some (.processing, 0, 0, 200)) ∧
    ((processTelecomTransaction [] 0 none (dbReserveCase 500 200)).1.toOption.map
        (fun t => (t.previousBalance, t.newBalance)) = some (500, 300)) := by
  norm_num [processTelecomTransaction, dbReserveCase, DB.findTxn, DB.findWallet, DB.putTxn,
    DB.putWallet, DB.dispatch, List.find?, Except.toOption]

/-- Claim C2, failing part: with wallet balance 700 and a pending transaction
of totalAmount 2000, the settlement attempt surfaces the insufficient-balance
error, contacts no provider and leaves the wallet untouched — but it also
leaves the persisted transaction exactly as it was (still pending, empty
statusHistory): the failed-status save happens inside the session that the
catch block then aborts, so the transition to failed is rolled back. -/
theorem c2_failed_status_rolled_back :
    processTelecomTransaction [] 0 none (dbReserveCase 700 2000) =
      (.error errInsufficientBalance, dbReserveCase 700 2000) ∧
    (((processTelecomTransaction [] 0 none (dbReserveCase 700 2000)).2.findTxn 0).map
        (fun t => (t.status, t.statusHistory)) = some (.pending, [])) ∧
    (processTelecomTransaction [] 0 none (dbReserveCase 700 2000)).2.dispatched = [] := by
  norm_num [processTelecomTransaction, dbReserveCase, DB.findTxn, DB.findWallet, List.find?]

/-- Key fact extracted from a findTxn result. -/
theorem findTxn_id {db : DB} {i : Nat} {t : Txn} (h : db.findTxn i = some t) : t.id = i := by
  have := List.find?_some h
  simpa using this

/-- Key fact extracted from a findWallet result. -/
theorem findWallet_user {db : DB} {u : Nat} {w : Wallet} (h : db.findWallet u = some w) :
    w.user = u := by
  have := List.find?_some h
  simpa using this


/-- The original transaction after the refund transition (status and history
are the only fields that change; the row is not rewritten into a credit). -/
def refundedVersion (t : Txn) : Txn :=
  { t with
    status := .refunded,
    statusHistory := t.statusHistory ++ [⟨.refunded, "Automatic refund for failed transaction"⟩] }

/-- Claim C3: for every failed transaction whose owner's wallet exists,
refundFailedTransaction atomically credits the wallet by totalAmount,
decrements totalSpent by the same amount, transitions the original row to
refunded without otherwise rewriting it, and appends exactly one new
successful ledger row of the original's type whose metadata.refundFor is the
original reference. -/
theorem c3_refund_reversal (db : DB) (i : Nat) (t : Txn) (w : Wallet)
    (ht : db.findTxn i = some t) (hs : t.status = TxStatus.failed)
    (hw : db.findWallet t.user = some w) :
    ∃ r db1, refundFailedTransaction [] i db = (.ok r, db1) ∧
      db1.findWallet t.user = some { w with
        balance := w.balance + t.totalAmount,
        totalSpent := w.totalSpent - t.totalAmount } ∧
      db1.findTxn i = some (refundedVersion t) ∧
      r.status = .successful ∧ r.ty = t.ty ∧ r.user = t.user ∧
      r.amount = t.totalAmount ∧ r.fee = 0 ∧ r.totalAmount = t.totalAmount ∧
      r.metadata.refundFor = some t.reference ∧
      r.previousBalance = w.balance ∧ r.newBalance = w.balance + t.totalAmount ∧
      db1.txns = db.txns.map (fun x => if x.id = t.id then refundedVersion t else x) ++ [r] := by
  have hti : t.id = i := findTxn_id ht
  have hwu : w.user = t.user := findWallet_user hw
  unfold refundFailedTransaction
  simp only [ht, hs, hw]
  norm_num
  refine ⟨_, _, ⟨rfl, rfl⟩, ?_, ?_, ?_, ?_, ?_, ?_, ?_, ?_, ?_, ?_, ?_, ?_⟩
  · have hin : (db.wallets.find? (fun x => decide (x.user = t.user))).isSome := by
      unfold DB.findWallet at hw
      rw [hw]
      rfl
    have h1 := find?_update_found Wallet.user
      { w with balance := w.balance + t.totalAmount, totalSpent := w.totalSpent - t.totalAmount }
      t.user hwu db.wallets hin
    simpa [DB.findWallet, DB.putWallet, DB.putTxn, DB.bumpRef, DB.insertTxn] using h1
  · have hin : (db.txns.find? (fun x => decide (x.id = i))).isSome := by
      unfold DB.findTxn at ht
      rw [ht]
      rfl
    have h2 := find?_update_found Txn.id (refundedVersion t) i hti db.txns hin
    show DB.findTxn _ i = _
    unfold DB.findTxn DB.insertTxn DB.putTxn DB.bumpRef DB.putWallet
    dsimp only
    exact find?_append_some _ _ h2
  · rfl
  · rfl
  · rfl
  · rfl
  · rfl
  · rfl
  · rfl
  · rfl
  · rfl
  · simp [DB.insertTxn, DB.putTxn, DB.putWallet, DB.bumpRef, refundedVersion]

/-- Concrete failed transaction used to witness the refund claims. -/
def txRefundCase : Txn :=
  { id := 0
    reference := "FAILREF"
    user := 1
    ty := "data_recharge"
    category := "telecom"
    amount := 300
    fee := 0
    totalAmount := 300
    status := .failed }

/-- Concrete wallet used to witness the refund claims. -/
def wRefundCase : Wallet := ⟨1, 100, false, 0, 500⟩

/-- Concrete store used to witness the refund claims. -/
def dbRefundCase : DB :=
  { wallets := [wRefundCase]
    txns := [txRefundCase]
    providers := []
    nextId := 1
    nextRef := 0
    dispatched := [] }

/-- Witness for C3 at a concrete store: wallet balance 100 / totalSpent 500,
failed transaction of totalAmount 300. -/
theorem c3_refund_reversal_witness :
    ∃ r db1, refundFailedTransaction [] 0 dbRefundCase = (.ok r, db1) ∧
      db1.findWallet txRefundCase.user = some { wRefundCase with
        balance := wRefundCase.balance + txRefundCase.totalAmount,
        totalSpent := wRefundCase.totalSpent - txRefundCase.totalAmount } ∧
      db1.findTxn 0 = some (refundedVersion txRefundCase) ∧
      r.status = .successful ∧ r.ty = txRefundCase.ty ∧ r.user = txRefundCase.user ∧
      r.amount = txRefundCase.totalAmount ∧ r.fee = 0 ∧ r.totalAmount = txRefundCase.totalAmount ∧
      r.metadata.refundFor = some txRefundCase.reference ∧
      r.previousBalance = wRefundCase.balance ∧
      r.newBalance = wRefundCase.balance + txRefundCase.totalAmount ∧
      db1.txns = dbRefundCase.txns.map
        (fun x => if x.id = txRefundCase.id then refundedVersion txRefundCase else x) ++ [r] :=
  c3_refund_reversal dbRefundCase 0 txRefundCase wRefundCase rfl rfl rfl

/-- Shape of the store after a committed refund: the original transaction is
findable as its refunded version. -/
theorem findTxn_after_refund_shape (db : DB) (w1 : Wallet) (t1 R : Txn) (i : Nat)
    (hid : t1.id = i) (hin : (db.txns.find? (fun x => decide (x.id = i))).isSome) :
    ((((db.putWallet w1).putTxn t1).bumpRef).insertTxn R).findTxn i = some t1 := by
  unfold DB.findTxn DB.insertTxn DB.putTxn DB.putWallet DB.bumpRef
  dsimp only
  exact find?_append_some _ _ (find?_update_found Txn.id t1 i hid db.txns hin)

/-- Claim C7: a refund is accepted only while the transaction's status is
failed. Invoking refundFailedTransaction on a transaction in any other status
(in particular one already refunded) is rejected with the not-failed error and
leaves the store untouched, and after one successful refund any second refund
of the same transaction is rejected in this way — at most one refund is ever
applied per failed transaction. -/
theorem c7_refund_only_for_failed :
    (∀ fw db i t, db.findTxn i = some t → t.status ≠ TxStatus.failed →
      refundFailedTransaction fw i db = (.error errNotFoundOrNotFailed, db)) ∧
    (∀ fw fw2 db i r db1, refundFailedTransaction fw i db = (.ok r, db1) →
      refundFailedTransaction fw2 i db1 = (.error errNotFoundOrNotFailed, db1)) := by
  constructor
  · intro fw db i t ht hne
    unfold refundFailedTransaction
    simp [ht, hne]
  · intro fw fw2 db i r db1 h
    unfold refundFailedTransaction at h
    repeat' split at h
    all_goals try simp at h
    rename_i xo tr htr hstat wo wal hwal hc0 hc1 hc2
    obtain ⟨h1, h2⟩ := h
    subst h2
    have hti := findTxn_id htr
    have hin : (db.txns.find? (fun x => decide (x.id = i))).isSome := by
      unfold DB.findTxn at htr
      rw [htr]
      rfl
    unfold refundFailedTransaction
    rw [findTxn_after_refund_shape db _ _ _ i (by exact hti) hin]
    simp

/-- The ledger row created by refunding txRefundCase in dbRefundCase. -/
def refundRowCase : Txn :=
  { id := 1
    reference := "YAREEMA0"
    user := 1
    ty := "data_recharge"
    category := "telecom"
    amount := 300
    fee := 0
    totalAmount := 300
    previousBalance := 100
    newBalance := 400
    status := .successful
    description := "Refund for failed transaction FAILREF"
    metadata := { refundFor := some "FAILREF", originalTransaction := some 0 } }

/-- The store after refunding txRefundCase in dbRefundCase. -/
def dbRefundedCase : DB :=
  { wallets := [⟨1, 400, false, 0, 200⟩]
    txns := [refundedVersion txRefundCase, refundRowCase]
    providers := []
    nextId := 2
    nextRef := 1
    dispatched := [] }

/-- Witness for C7: refunding the pending transaction of dbReserveCase is
rejected, and refunding the already refunded transaction of dbRefundedCase
(the store produced by refunding dbRefundCase once) is rejected. -/
theorem c7_refund_only_for_failed_witness :
    refundFailedTransaction [] 0 (dbReserveCase 500 200) =
      (.error errNotFoundOrNotFailed, dbReserveCase 500 200) ∧
    refundFailedTransaction [] 0 dbRefundedCase =
      (.error errNotFoundOrNotFailed, dbRefundedCase) := by
  constructor
  · exact c7_refund_only_for_failed.1 [] (dbReserveCase 500 200) 0
      { id := 0
        reference := "TELEREF"
        user := 1
        ty := "data_recharge"
        category := "telecom"
        amount := 200
        fee := 0
        totalAmount := 200 } rfl (by decide)
  · refine c7_refund_only_for_failed.2 [] [] dbRefundCase 0 refundRowCase dbRefundedCase ?_
    norm_num [refundFailedTransaction, dbRefundCase, dbRefundedCase, refundRowCase,
      txRefundCase, wRefundCase, refundedVersion, DB.findTxn, DB.findWallet, DB.putTxn,
      DB.putWallet, DB.bumpRef, DB.insertTxn, DB.freshRef, List.find?]
    constructor <;> rfl

/-- The transfer fee policy: max(10, amount * 0.02). -/
def tfrFee (a : ℚ) : ℚ := max 10 (a * (2 / 100))

/-- Sender wallet after a successful transfer. -/
def tfrSenderW (sw : Wallet) (a : ℚ) : Wallet :=
  { sw with
    balance := sw.balance - (a + tfrFee a),
    totalSpent := sw.totalSpent + (a + tfrFee a) }

/-- Recipient wallet after a successful transfer. -/
def tfrRecipientW (rw : Wallet) (a : ℚ) : Wallet :=
  { rw with balance := rw.balance + a, totalFunded := rw.totalFunded + a }

/-- The sender's gross transfer ledger row. -/
def tfrRow1 (db : DB) (s rc : Nat) (a : ℚ) (sw : Wallet) : Txn :=
  { id := db.nextId
    reference := "YAREEMA" ++ toString db.nextRef
    user := s
    ty := "wallet_transfer"
    category := "transfer"
    amount := a
    fee := tfrFee a
    totalAmount := a + tfrFee a
    previousBalance := sw.balance
    newBalance := sw.balance - (a + tfrFee a)
    status := .successful
    recipientUser := some rc
    description := "Transfer to user"
    metadata := { transferType := some "wallet_to_wallet" } }

/-- The fee-only ledger row, linked to the gross row's reference. -/
def tfrRow2 (db : DB) (s : Nat) (a : ℚ) (sw : Wallet) : Txn :=
  { id := db.nextId + 1
    reference := "YAREEMA" ++ toString (db.nextRef + 1)
    user := s
    ty := "wallet_transfer"
    category := "transfer"
    amount := tfrFee a
    fee := 0
    totalAmount := tfrFee a
    previousBalance := sw.balance - a
    newBalance := sw.balance - (a + tfrFee a)
    status := .successful
    description := "Transfer fee"
    metadata := { transferType := some "fee"
                  linkedReference := some ("YAREEMA" ++ toString db.nextRef) } }

/-- The recipient's credit ledger row, linked to the gross row's reference. -/
def tfrRow3 (db : DB) (s rc : Nat) (a : ℚ) (rw : Wallet) : Txn :=
  { id := db.nextId + 2
    reference := "YAREEMA" ++ toString (db.nextRef + 2)
    user := rc
    ty := "wallet_transfer"
    category := "transfer"
    amount := a
    fee := 0
    totalAmount := a
    previousBalance := rw.balance
    newBalance := rw.balance + a
    status := .successful
    description := "Transfer from user"
    metadata := { transferType := some "wallet_to_wallet"
                  sender := some s
                  linkedReference := some ("YAREEMA" ++ toString db.nextRef) } }

/-- The store after a successful transfer. -/
def tfrDB (db : DB) (s rc : Nat) (a : ℚ) (sw rw : Wallet) : DB :=
  { db with
    wallets := ((db.putWallet (tfrSenderW sw a)).putWallet (tfrRecipientW rw a)).wallets
    txns := ((db.txns ++ [tfrRow1 db s rc a sw]) ++ [tfrRow2 db s a sw]) ++ [tfrRow3 db s rc a rw]
    nextId := db.nextId + 1 + 1 + 1
    nextRef := db.nextRef + 1 + 1 + 1 }

/-- Successful run of transferFunds spelled out; shared backbone of the
transfer claims. -/
theorem transfer_ok_run (db : DB) (s rc : Nat) (a : ℚ) (sw rw : Wallet)
    (hsw : db.findWallet s = some sw) (hrw : db.findWallet rc = some rw)
    (hsl : sw.locked = false) (hrl : rw.locked = false)
    (hbal : a + tfrFee a ≤ sw.balance) :
    transferFunds [] s rc a db =
      (.ok (tfrSenderW sw a, tfrRecipientW rw a, tfrRow1 db s rc a sw,
            tfrRow2 db s a sw, tfrRow3 db s rc a rw),
       tfrDB db s rc a sw rw) := by
  have hfee : (0 : ℚ) ≤ tfrFee a := le_trans (by norm_num) (le_max_left 10 (a * (2 / 100)))
  have hba : ¬ sw.balance < a :=
    not_lt.2 (le_trans (le_add_of_nonneg_right hfee) hbal)
  have hbt : ¬ sw.balance < a + max 10 (a * (2 / 100)) := not_lt.2 hbal
  unfold transferFunds
  simp only [hsw, hrw]
  rw [if_neg (by simp [hsl]), if_neg (by simp [hrl]), if_neg hba, if_neg hbt,
    if_neg (by simp), if_neg (by simp), if_neg (by simp), if_neg (by simp), if_neg (by simp)]
  rfl

/-- Claim C6: with both wallets present and unlocked and sender balance at
least amount + fee (fee = max(10, amount * 0.02)), transferFunds debits the
sender by amount + fee, credits the recipient by amount, and writes exactly
three linked ledger rows (gross transfer, fee-only, recipient credit); with
sender balance below amount + fee it fails with an insufficient-balance error
and changes nothing. -/
theorem c6_transfer (db : DB) (s rc : Nat) (a : ℚ) (sw rw : Wallet)
    (hne : s ≠ rc)
    (hsw : db.findWallet s = some sw) (hrw : db.findWallet rc = some rw)
    (hsl : sw.locked = false) (hrl : rw.locked = false) :
    (a + tfrFee a ≤ sw.balance →
      transferFunds [] s rc a db =
        (.ok (tfrSenderW sw a, tfrRecipientW rw a, tfrRow1 db s rc a sw,
              tfrRow2 db s a sw, tfrRow3 db s rc a rw), tfrDB db s rc a sw rw) ∧
      (tfrDB db s rc a sw rw).findWallet s = some { sw with
        balance := sw.balance - (a + tfrFee a),
        totalSpent := sw.totalSpent + (a + tfrFee a) } ∧
      (tfrDB db s rc a sw rw).findWallet rc = some { rw with
        balance := rw.balance + a,
        totalFunded := rw.totalFunded + a } ∧
      (tfrDB db s rc a sw rw).txns =
        db.txns ++ [tfrRow1 db s rc a sw, tfrRow2 db s a sw, tfrRow3 db s rc a rw] ∧
      (tfrRow1 db s rc a sw).amount = a ∧ (tfrRow1 db s rc a sw).fee = tfrFee a ∧
      (tfrRow1 db s rc a sw).totalAmount = a + tfrFee a ∧
      (tfrRow2 db s a sw).amount = tfrFee a ∧ (tfrRow2 db s a sw).totalAmount = tfrFee a ∧
      (tfrRow2 db s a sw).metadata.linkedReference = some (tfrRow1 db s rc a sw).reference ∧
      (tfrRow3 db s rc a rw).user = rc ∧ (tfrRow3 db s rc a rw).totalAmount = a ∧
      (tfrRow3 db s rc a rw).metadata.linkedReference = some (tfrRow1 db s rc a sw).reference) ∧
    (sw.balance < a + tfrFee a →
      (transferFunds [] s rc a db = (.error errInsufficientBalance, db) ∨
       transferFunds [] s rc a db = (.error errInsufficientForFee, db))) := by
  have hsu : sw.user = s := findWallet_user hsw
  have hru : rw.user = rc := findWallet_user hrw
  constructor
  · intro hbal
    refine ⟨transfer_ok_run db s rc a sw rw hsw hrw hsl hrl hbal,
      ?_, ?_, ?_, rfl, rfl, rfl, rfl, rfl, rfl, rfl, rfl, rfl⟩
    · show DB.findWallet _ _ = _
      unfold DB.findWallet tfrDB DB.putWallet
      dsimp only
      rw [find?_update_other Wallet.user (tfrRecipientW rw a) s
        (by simpa [tfrRecipientW, hru] using (Ne.symm hne))]
      exact find?_update_found Wallet.user (tfrSenderW sw a) s (by simpa [tfrSenderW] using hsu)
        db.wallets (by unfold DB.findWallet at hsw; rw [hsw]; rfl)
    · show DB.findWallet _ _ = _
      unfold DB.findWallet tfrDB DB.putWallet
      dsimp only
      refine find?_update_found Wallet.user (tfrRecipientW rw a) rc
        (by simpa [tfrRecipientW] using hru) _ ?_
      rw [find?_update_other Wallet.user (tfrSenderW sw a) rc
        (by simpa [tfrSenderW, hsu] using hne)]
      unfold DB.findWallet at hrw
      rw [hrw]
      rfl
    · show (tfrDB db s rc a sw rw).txns = _
      unfold tfrDB
      simp [List.append_assoc]
  · intro hlt
    by_cases hba : sw.balance < a
    · left
      unfold transferFunds
      simp only [hsw, hrw]
      rw [if_neg (by simp [hsl]), if_neg (by simp [hrl]), if_pos hba]
    · right
      unfold transferFunds
      simp only [hsw, hrw]
      rw [if_neg (by simp [hsl]), if_neg (by simp [hrl]), if_neg hba,
        if_pos (show sw.balance < a + max 10 (a * (2 / 100)) from hlt)]

/-- Concrete store for the transfer witnesses: sender (user 1) balance 1000,
recipient (user 2) balance 0. -/
def dbTransferCase : DB :=
  { wallets := [⟨1, 1000, false, 0, 0⟩, ⟨2, 0, false, 0, 0⟩]
    txns := []
    providers := []
    nextId := 10
    nextRef := 0
    dispatched := [] }

/-- Witness for C6: transferring 100 from balance 1000 yields fee 10, sender
balance 890 (totalSpent 110), recipient balance 100, and the three rows. -/
theorem c6_transfer_witness :
    tfrFee 100 = 10 ∧
    transferFunds [] 1 2 100 dbTransferCase =
      (.ok (⟨1, 890, false, 0, 110⟩, ⟨2, 100, false, 100, 0⟩,
            tfrRow1 dbTransferCase 1 2 100 ⟨1, 1000, false, 0, 0⟩,
            tfrRow2 dbTransferCase 1 100 ⟨1, 1000, false, 0, 0⟩,
            tfrRow3 dbTransferCase 1 2 100 ⟨2, 0, false, 0, 0⟩),
       tfrDB dbTransferCase 1 2 100 ⟨1, 1000, false, 0, 0⟩ ⟨2, 0, false, 0, 0⟩) ∧
    (tfrDB dbTransferCase 1 2 100 ⟨1, 1000, false, 0, 0⟩ ⟨2, 0, false, 0, 0⟩).txns.length = 3 := by
  have h := (c6_transfer dbTransferCase 1 2 100 ⟨1, 1000, false, 0, 0⟩ ⟨2, 0, false, 0, 0⟩
    (by decide) rfl rfl rfl rfl).1 (by norm_num [tfrFee])
  refine ⟨by norm_num [tfrFee], ?_, ?_⟩
  · rw [h.1]
    norm_num [tfrSenderW, tfrRecipientW, tfrFee]
  · rw [h.2.2.2.1]
    rfl

/-- Claim C10: every successful transfer writes three rows whose balance
snapshots are mutually consistent — the gross row runs from the sender's
starting balance P to P - amount - fee, the fee row from P - amount to
P - amount - fee, the recipient row gains exactly amount — each row satisfies
|newBalance - previousBalance| = its own totalAmount, and the fee and
recipient rows are linked to the gross row's reference. -/
theorem c10_transfer_row_snapshots (db : DB) (s rc : Nat) (a : ℚ) (sw rw : Wallet)
    (ha : 0 ≤ a)
    (hsw : db.findWallet s = some sw) (hrw : db.findWallet rc = some rw)
    (hsl : sw.locked = false) (hrl : rw.locked = false)
    (hbal : a + tfrFee a ≤ sw.balance) :
    transferFunds [] s rc a db =
      (.ok (tfrSenderW sw a, tfrRecipientW rw a, tfrRow1 db s rc a sw,
            tfrRow2 db s a sw, tfrRow3 db s rc a rw), tfrDB db s rc a sw rw) ∧
    (tfrRow1 db s rc a sw).previousBalance = sw.balance ∧
    (tfrRow1 db s rc a sw).newBalance = sw.balance - (a + tfrFee a) ∧
    (tfrRow2 db s a sw).previousBalance = sw.balance - a ∧
    (tfrRow2 db s a sw).newBalance = sw.balance - (a + tfrFee a) ∧
    (tfrRow3 db s rc a rw).newBalance - (tfrRow3 db s rc a rw).previousBalance = a ∧
    |(tfrRow1 db s rc a sw).newBalance - (tfrRow1 db s rc a sw).previousBalance| =
      (tfrRow1 db s rc a sw).totalAmount ∧
    |(tfrRow2 db s a sw).newBalance - (tfrRow2 db s a sw).previousBalance| =
      (tfrRow2 db s a sw).totalAmount ∧
    |(tfrRow3 db s rc a rw).newBalance - (tfrRow3 db s rc a rw).previousBalance| =
      (tfrRow3 db s rc a rw).totalAmount ∧
    (tfrRow2 db s a sw).metadata.linkedReference = some (tfrRow1 db s rc a sw).reference ∧
    (tfrRow3 db s rc a rw).metadata.linkedReference = some (tfrRow1 db s rc a sw).reference := by
  have hfee : (0 : ℚ) ≤ tfrFee a := le_trans (by norm_num) (le_max_left 10 (a * (2 / 100)))
  have htot : (0 : ℚ) ≤ a + tfrFee a := add_nonneg ha hfee
  refine ⟨transfer_ok_run db s rc a sw rw hsw hrw hsl hrl hbal,
    rfl, rfl, rfl, rfl, by show rw.balance + a - rw.balance = a; ring,
    ?_, ?_, ?_, rfl, rfl⟩
  · show |sw.balance - (a + tfrFee a) - sw.balance| = a + tfrFee a
    rw [show sw.balance - (a + tfrFee a) - sw.balance = -(a + tfrFee a) by ring,
      abs_neg, abs_of_nonneg htot]
  · show |sw.balance - (a + tfrFee a) - (sw.balance - a)| = tfrFee a
    rw [show sw.balance - (a + tfrFee a) - (sw.balance - a) = -(tfrFee a) by ring,
      abs_neg, abs_of_nonneg hfee]
  · show |rw.balance + a - rw.balance| = a
    rw [show rw.balance + a - rw.balance = a by ring, abs_of_nonneg ha]

/-- Witness for C10: the three rows of the concrete 1000/0/100 transfer all
satisfy the snapshot equations. -/
theorem c10_transfer_row_snapshots_witness :
    isOkResult (transferFunds [] 1 2 100 dbTransferCase).1 = true ∧
    |(tfrRow1 dbTransferCase 1 2 100 ⟨1, 1000, false, 0, 0⟩).newBalance -
        (tfrRow1 dbTransferCase 1 2 100 ⟨1, 1000, false, 0, 0⟩).previousBalance| =
      (tfrRow1 dbTransferCase 1 2 100 ⟨1, 1000, false, 0, 0⟩).totalAmount ∧
    |(tfrRow2 dbTransferCase 1 100 ⟨1, 1000, false, 0, 0⟩).newBalance -
        (tfrRow2 dbTransferCase 1 100 ⟨1, 1000, false, 0, 0⟩).previousBalance| =
      (tfrRow2 dbTransferCase 1 100 ⟨1, 1000, false, 0, 0⟩).totalAmount ∧
    |(tfrRow3 dbTransferCase 1 2 100 ⟨2, 0, false, 0, 0⟩).newBalance -
        (tfrRow3 dbTransferCase 1 2 100 ⟨2, 0, false, 0, 0⟩).previousBalance| =
      (tfrRow3 dbTransferCase 1 2 100 ⟨2, 0, false, 0, 0⟩).totalAmount := by
  have h := c10_transfer_row_snapshots dbTransferCase 1 2 100
    ⟨1, 1000, false, 0, 0⟩ ⟨2, 0, false, 0, 0⟩
    (by norm_num) rfl rfl rfl rfl (by norm_num [tfrFee])
  obtain ⟨h1, h2, h3, h4, h5, h6, h7, h8, h9, h10, h11⟩ := h
  exact ⟨by rw [h1]; rfl, h7, h8, h9⟩

theorem insertSorted_nil {α : Type} (le : α → α → Bool) (x : α) :
    insertSorted le x [] = [x] := rfl

theorem insertSorted_cons {α : Type} (le : α → α → Bool) (x a : α) (t : List α) :
    insertSorted le x (a :: t) =
      if le x a = true then x :: a :: t else a :: insertSorted le x t := rfl

theorem mem_insertSorted {α : Type} (le : α → α → Bool) (x b : α) :
    ∀ l : List α, b ∈ insertSorted le x l → b = x ∨ b ∈ l := by
  intro l
  induction l with
  | nil => simp [insertSorted]
  | cons a t ih =>
    unfold insertSorted
    by_cases h : le x a = true
    · rw [if_pos h]
      intro hb
      rcases List.mem_cons.1 hb with h1 | h1
      · exact Or.inl h1
      · exact Or.inr h1
    · rw [if_neg h]
      intro hb
      rcases List.mem_cons.1 hb with h1 | h1
      · exact Or.inr (h1 ▸ List.mem_cons_self a t)
      · rcases ih h1 with h2 | h2
        · exact Or.inl h2
        · exact Or.inr (List.mem_cons_of_mem a h2)

theorem insertSorted_of_le_all {α : Type} (le : α → α → Bool) (x : α) (l : List α)
    (h : ∀ b ∈ l, le x b = true) : insertSorted le x l = x :: l := by
  cases l with
  | nil => rfl
  | cons a t =>
    unfold insertSorted
    rw [if_pos (h a (List.mem_cons_self a t))]

theorem pairwise_insertSorted {α : Type} (le : α → α → Bool)
    (htot : ∀ a b, le a b = true ∨ le b a = true)
    (htrans : ∀ a b c, le a b = true → le b c = true → le a c = true) (x : α) :
    ∀ l : List α, l.Pairwise (fun a b => le a b = true) →
      (insertSorted le x l).Pairwise (fun a b => le a b = true) := by
  intro l
  induction l with
  | nil => simp [insertSorted]
  | cons a t ih =>
    intro hp
    rcases List.pairwise_cons.1 hp with ⟨hat, hpt⟩
    unfold insertSorted
    by_cases h : le x a = true
    · rw [if_pos h]
      refine List.pairwise_cons.2 ⟨?_, hp⟩
      intro b hb
      rcases List.mem_cons.1 hb with h1 | h1
      · exact h1 ▸ h
      · exact htrans x a b h (hat b h1)
    · rw [if_neg h]
      refine List.pairwise_cons.2 ⟨?_, ih hpt⟩
      intro b hb
      rcases mem_insertSorted le x b t hb with h1 | h1
      · rw [h1]
        exact (htot x a).resolve_left h
      · exact hat b h1

theorem sorted_isort {α : Type} (le : α → α → Bool)
    (htot : ∀ a b, le a b = true ∨ le b a = true)
    (htrans : ∀ a b c, le a b = true → le b c = true → le a c = true) :
    ∀ l : List α, (isort le l).Pairwise (fun a b => le a b = true) := by
  intro l
  induction l with
  | nil => simp [isort]
  | cons a t ih => exact pairwise_insertSorted le htot htrans a (isort le t) ih

theorem filter_insertSorted {α : Type} (le : α → α → Bool)
    (htrans : ∀ a b c, le a b = true → le b c = true → le a c = true)
    (p : α → Bool) (x : α) :
    ∀ l : List α, l.Pairwise (fun a b => le a b = true) →
      (insertSorted le x l).filter p =
        if p x = true then insertSorted le x (l.filter p) else l.filter p := by
  intro l
  induction l with
  | nil =>
    intro _
    by_cases hx : p x = true
    · simp [insertSorted, List.filter_cons, hx]
    · simp [insertSorted, List.filter_cons, hx]
  | cons a t ih =>
    intro hp
    rcases List.pairwise_cons.1 hp with ⟨hat, hpt⟩
    rw [insertSorted_cons]
    by_cases h : le x a = true
    · rw [if_pos h]
      by_cases hx : p x = true
      · rw [if_pos hx, List.filter_cons_of_pos hx]
        have hall : ∀ b ∈ (a :: t).filter p, le x b = true := by
          intro b hb
          rcases List.mem_cons.1 (List.mem_of_mem_filter hb) with h1 | h1
          · exact h1 ▸ h
          · exact htrans x a b h (hat b h1)
        rw [insertSorted_of_le_all le x _ hall]
      · rw [if_neg hx, List.filter_cons_of_neg hx]
    · rw [if_neg h]
      rw [List.filter_cons]
      by_cases hpa : p a = true
      · rw [if_pos hpa, ih hpt]
        by_cases hx : p x = true
        · rw [if_pos hx, if_pos hx, List.filter_cons_of_pos hpa, insertSorted_cons, if_neg h]
        · rw [if_neg hx, if_neg hx, List.filter_cons_of_pos hpa]
      · rw [if_neg hpa, ih hpt]
        by_cases hx : p x = true
        · rw [if_pos hx, if_pos hx, List.filter_cons_of_neg hpa]
        · rw [if_neg hx, if_neg hx, List.filter_cons_of_neg hpa]

theorem filter_isort {α : Type} (le : α → α → Bool)
    (htot : ∀ a b, le a b = true ∨ le b a = true)
    (htrans : ∀ a b c, le a b = true → le b c = true → le a c = true)
    (p : α → Bool) :
    ∀ l : List α, (isort le l).filter p = isort le (l.filter p) := by
  intro l
  induction l with
  | nil => simp [isort]
  | cons a t ih =>
    show (insertSorted le a (isort le t)).filter p = isort le ((a :: t).filter p)
    rw [filter_insertSorted le htrans p a (isort le t) (sorted_isort le htot htrans t)]
    rw [List.filter_cons]
    by_cases hpa : p a = true
    · rw [if_pos hpa, if_pos hpa]
      show insertSorted le a ((isort le t).filter p) = isort le (a :: t.filter p)
      rw [ih]
      rfl
    · rw [if_neg hpa, if_neg hpa]
      exact ih

theorem provLe_total : ∀ a b, provLe a b = true ∨ provLe b a = true := by
  intro a b
  simp only [provLe, decide_eq_true_eq]
  rcases lt_trichotomy a.priority b.priority with h | h | h
  · exact Or.inl (Or.inl h)
  · rcases le_total b.successRate a.successRate with hs | hs
    · exact Or.inl (Or.inr ⟨h, hs⟩)
    · exact Or.inr (Or.inr ⟨h.symm, hs⟩)
  · exact Or.inr (Or.inl h)

theorem provLe_trans : ∀ a b c, provLe a b = true → provLe b c = true → provLe a c = true := by
  intro a b c hab hbc
  simp only [provLe, decide_eq_true_eq] at hab hbc ⊢
  rcases hab with h1 | ⟨h1, h1s⟩ <;> rcases hbc with h2 | ⟨h2, h2s⟩
  · exact Or.inl (lt_trans h1 h2)
  · exact Or.inl (h2 ▸ h1)
  · exact Or.inl (h1 ▸ h2)
  · exact Or.inr ⟨h1.trans h2, le_trans h2s h1s⟩

/-- Claim C9, amended: BillsService.getAvailableProviders computes exactly the
spec's selection (supporting providers with status active or degraded, outside
their maintenance window, sorted by ascending priority then descending
successRate, preferred provider fronted), while
TransactionService.getAvailableProviders computes the same pipeline over only
the status-active supporting providers, with no maintenance-window check. -/
theorem c9_provider_selection_amended :
    (∀ now serviceType preferredProvider db,
      billsGetAvailableProviders now serviceType preferredProvider db =
        specProviderSelection now serviceType preferredProvider db) ∧
    (∀ serviceType preferredProvider db,
      txGetAvailableProviders serviceType preferredProvider db =
        specProviderSelectionActiveOnly serviceType preferredProvider db) := by
  constructor
  · intro now serviceType preferredProvider db
    unfold billsGetAvailableProviders specProviderSelection
    dsimp only
    congr 1
    rw [filter_isort provLe provLe_total provLe_trans]
    congr 1
    rw [List.filter_filter]
    apply List.filter_congr
    intro x _
    cases hs : x.status <;>
      cases hms : x.maintenanceStart <;>
        cases hme : x.maintenanceEnd <;>
          simp [supportsAndUp, availableNow, hs, hms, hme, decide_eq_true_eq, Bool.and_assoc,
            Bool.and_comm]
  · intro serviceType preferredProvider db
    rfl

/-- A degraded provider supporting data recharges, for the C9 counterexample. -/
def provDegradedCase : ProviderStatus :=
  { providerName := "mtn"
    supportedServices := ["data_recharge"]
    status := .degraded
    priority := 1
    successRate := 1 }

/-- Store holding only the degraded provider. -/
def dbProvCase : DB :=
  { wallets := []
    txns := []
    providers := [provDegradedCase]
    nextId := 0
    nextRef := 0
    dispatched := [] }

/-- Counterexample to C9 as stated: for service type data_recharge with no
preferred provider, the spec's selection returns the degraded provider, but
TransactionService.getAvailableProviders returns the empty list — its query
admits only status active, so the claimed characterisation fails on it. -/
theorem c9_counterexample_degraded_excluded :
    txGetAvailableProviders "data_recharge" none dbProvCase = [] ∧
    specProviderSelection 0 "data_recharge" none dbProvCase = [provDegradedCase] ∧
    txGetAvailableProviders "data_recharge" none dbProvCase ≠
      specProviderSelection 0 "data_recharge" none dbProvCase := by
  have h1 : txGetAvailableProviders "data_recharge" none dbProvCase = [] := rfl
  have h2 : specProviderSelection 0 "data_recharge" none dbProvCase = [provDegradedCase] := rfl
  refine ⟨h1, h2, ?_⟩
  rw [h1, h2]
  simp

/-- Claim C8: retry is permitted only while the transaction is failed and the
retry count (which the admin controller passes from the stored transaction) is
below maxRetries. A retry at the cap is rejected with the max-retries error
and a retry of a non-failed (for example refunded) transaction is rejected
with the not-failed error, in both cases leaving the store — balances and
dispatch log included — untouched; a permitted retry selects the first
available provider not in metadata.triedProviders, increments retryCount by
one, and leaves every wallet unchanged. -/
theorem c8_retry_gating :
    (∀ fw db i t, db.findTxn i = some t → t.status = TxStatus.failed →
      t.maxRetries ≤ t.retryCount →
      retryFailedTransaction fw i t.retryCount db = (.error errMaxRetries, db)) ∧
    (∀ fw db i t r, db.findTxn i = some t → t.status ≠ TxStatus.failed →
      retryFailedTransaction fw i r db = (.error errNotFailedState, db)) ∧
    (∀ db i t r prov, db.findTxn i = some t → t.status = TxStatus.failed →
      r < t.maxRetries →
      (telecomGetAvailableProviders t.ty t.providerName db).find?
          (fun p => !t.metadata.triedProviders.contains p.providerName) = some prov →
      ∃ t1 db1, retryFailedTransaction [] i r db = (.ok (t1, t.retryCount + 1), db1) ∧
        t1.retryCount = t.retryCount + 1 ∧
        t1.providerName = some prov.providerName ∧
        (t.metadata.triedProviders.contains prov.providerName) = false ∧
        t1.metadata.triedProviders = t.metadata.triedProviders ++ [prov.providerName] ∧
        db1.findTxn i = some t1 ∧
        db1.dispatched = db.dispatched ++ [(i, some prov.providerName)] ∧
        db1.wallets = db.wallets) := by
  refine ⟨?_, ?_, ?_⟩
  · intro fw db i t ht hs hmax
    unfold retryFailedTransaction
    simp only [ht, hs]
    rw [if_neg (by simp), if_pos hmax]
  · intro fw db i t r ht hs
    unfold retryFailedTransaction
    simp only [ht]
    rw [if_pos hs]
  · intro db i t r prov ht hs hr hfind
    have hti : t.id = i := findTxn_id ht
    have hnotTried : (t.metadata.triedProviders.contains prov.providerName) = false := by
      have := List.find?_some hfind
      simpa using this
    unfold retryFailedTransaction
    simp only [ht, hs, hfind]
    rw [if_neg (by simp), if_neg (not_le.2 hr)]
    rw [if_neg (by simp)]
    refine ⟨_, _, rfl, rfl, rfl, hnotTried, rfl, ?_, rfl, rfl⟩
    show (DB.dispatch _ _ _).findTxn i = _
    unfold DB.findTxn DB.dispatch DB.putTxn
    refine find?_update_found Txn.id _ i ?_ db.txns ?_
    · exact hti
    · unfold DB.findTxn at ht
      rw [ht]
      rfl

/-- A failed telecom transaction that has exhausted its retries. -/
def txRetryMaxCase : Txn :=
  { id := 0
    reference := "RETRYMAX"
    user := 1
    ty := "data_recharge"
    category := "telecom"
    amount := 100
    fee := 0
    totalAmount := 100
    status := .failed
    retryCount := 3
    maxRetries := 3 }

/-- Store for the exhausted-retries witness. -/
def dbRetryMaxCase : DB :=
  { wallets := [⟨1, 50, false, 0, 0⟩]
    txns := [txRetryMaxCase]
    providers := []
    nextId := 1
    nextRef := 0
    dispatched := [] }

/-- A failed telecom transaction with one retry left. -/
def txRetryCase : Txn :=
  { id := 0
    reference := "RETRY1"
    user := 1
    ty := "data_recharge"
    category := "telecom"
    amount := 100
    fee := 0
    totalAmount := 100
    status := .failed
    retryCount := 1
    maxRetries := 3
    providerName := some "mtn" }

/-- An active provider supporting data recharges. -/
def provActiveCase : ProviderStatus :=
  { providerName := "glo"
    supportedServices := ["data_recharge"]
    status := .active
    priority := 1
    successRate := 1 }

/-- Store for the permitted-retry witness. -/
def dbRetryCase : DB :=
  { wallets := [⟨1, 50, false, 0, 0⟩]
    txns := [txRetryCase]
    providers := [provActiveCase]
    nextId := 1
    nextRef := 0
    dispatched := [] }

/-- Witness for C8: the retry at the cap is rejected, a retry of the refunded
transaction of dbRefundedCase is rejected, and the permitted retry on
dbRetryCase picks the untried provider and increments retryCount to 2. -/
theorem c8_retry_gating_witness :
    retryFailedTransaction [] 0 txRetryMaxCase.retryCount dbRetryMaxCase =
      (.error errMaxRetries, dbRetryMaxCase) ∧
    retryFailedTransaction [] 0 0 dbRefundedCase =
      (.error errNotFailedState, dbRefundedCase) ∧
    (∃ t1 db1, retryFailedTransaction [] 0 1 dbRetryCase =
        (.ok (t1, txRetryCase.retryCount + 1), db1) ∧
      t1.retryCount = txRetryCase.retryCount + 1 ∧
      t1.providerName = some provActiveCase.providerName ∧
      (txRetryCase.metadata.triedProviders.contains provActiveCase.providerName) = false ∧
      t1.metadata.triedProviders =
        txRetryCase.metadata.triedProviders ++ [provActiveCase.providerName] ∧
      db1.findTxn 0 = some t1 ∧
      db1.dispatched = dbRetryCase.dispatched ++ [(0, some provActiveCase.providerName)] ∧
      db1.wallets = dbRetryCase.wallets) := by
  refine ⟨?_, ?_, ?_⟩
  · exact c8_retry_gating.1 [] dbRetryMaxCase 0 txRetryMaxCase rfl rfl (by decide)
  · exact c8_retry_gating.2.1 [] dbRefundedCase 0 (refundedVersion txRefundCase) 0 rfl (by decide)
  · exact c8_retry_gating.2.2 dbRetryCase 0 txRetryCase 1 provActiveCase rfl rfl (by decide) rfl

/-- A pending wallet-funding transaction awaiting webhook confirmation. -/
def txFundCase : Txn :=
  { id := 0
    reference := "FUND1"
    user := 1
    ty := "fund_wallet"
    category := "funding"
    amount := 500
    fee := 0
    totalAmount := 500
    status := .pending }

/-- The funding user's wallet. -/
def wFundCase : Wallet := ⟨1, 250, false, 0, 0⟩

/-- Store for the reconciler witness. -/
def dbFundCase : DB :=
  { wallets := [wFundCase]
    txns := [txFundCase]
    providers := []
    nextId := 1
    nextRef := 0
    dispatched := [] }

/-- Claim C4, failing part: the reconciler's success path can never commit a
credit, because it hands creditWallet the pending transaction's own reference
and the ledger insert then violates the unique reference index. On the
concrete store (pending fund_wallet row FUND1 of amount 500, owner wallet
balance 250 and unlocked) the webhook confirmation of FUND1 aborts with the
wrapped duplicate-key error and returns the store unchanged: the wallet keeps
balance 250, the transaction stays pending, and a second delivery fails the
same way — the claimed first-application credit and successful transition
never happen. An unknown reference is still acknowledged as a no-op. -/
theorem c4_duplicate_reference_aborts_credit :
    handleSuccessfulPayment [] "FUND1" 500 dbFundCase =
      (.error errFailedToCredit, dbFundCase) ∧
    dbFundCase.refTaken "FUND1" = true ∧
    ((dbFundCase.findTxn 0).map Txn.status = some TxStatus.pending) ∧
    ((dbFundCase.findWallet 1).map Wallet.balance = some 250) ∧
    handleSuccessfulPayment []
        "FUND1" 500 (handleSuccessfulPayment [] "FUND1" 500 dbFundCase).2 =
      (.error errFailedToCredit, dbFundCase) ∧
    handleSuccessfulPayment [] "MISSING" 500 dbFundCase = (.ok (), dbFundCase) :=
  ⟨rfl, rfl, rfl, rfl, rfl, rfl⟩
